import Mathlib

/-!
Shallow embedding of the correlation broker, busy guard and processing lock
of the agent-demo backend (`main.py`, `builtin_actions.py`).

Python dicts are modelled as total functions `String → Option β`; asyncio
futures as an explicit two-state `Future`; the cooperative scheduler's
suspension points as explicit phases of a step machine; external outcomes
(TTS success, frontend acknowledgements, exceptions while emitting) as
environment records supplied to the handler functions.
-/

namespace AgentDemo

/-- A Python dict with string keys, as a total function into `Option`. -/
def Map (β : Type) := String → Option β

def Map.empty {β : Type} : Map β := fun _ => none

/-- Dict assignment `m[k] = v` (adds or replaces). -/
def Map.set {β : Type} (m : Map β) (k : String) (v : β) : Map β :=
  fun q => if q = k then some v else m q

/-- Dict deletion `if k in m: del m[k]` (absent keys are untouched). -/
def Map.del {β : Type} (m : Map β) (k : String) : Map β :=
  fun q => if q = k then none else m q

/-- An `asyncio.Future`: pending, or completed with a value. -/
inductive Future (α : Type) where
  | pending
  | done (v : α)
deriving DecidableEq

/-- Whether the future is completed, as in `future.done()`. -/
def Future.isDone {α : Type} : Future α → Bool
  | .pending => false
  | .done _ => true

/-- Completing a future, as in `future.set_result(v)`; raises `InvalidStateError` on a completed future. -/
def Future.setResult {α : Type} : Future α → α → Except String (Future α)
  | .pending, v => .ok (.done v)
  | .done _, _ => .error "InvalidStateError"

/-- JSON-like values carried in tool-call results. -/
inductive Value where
  | null
  | bool (b : Bool)
  | nat (n : Nat)
  | str (s : String)
  | obj (fields : List (String × Value))

/-- The inbound `frontend_tool_response` event payload, a dict whose fields
may be absent (`data.get(...)`). -/
structure ToolResponse where
  toolCallId : Option String
  success : Option Bool
  result : Option Value
  error : Option String

/-- The envelope `frontend_action` returns to the Strands agent. -/
structure ActionResult where
  success : Bool
  data : Value

/- ------------------------------------------------------------------ -/
/- builtin_actions.handle_user_response (lines 257-273)               -/
/- ------------------------------------------------------------------ -/

/-- Resolver `handle_user_response(request_id, response)`: if a pending entry exists
and its future is not done, complete it and return `True`; otherwise return
`False`. The `Except` layer records whether `set_result` raised. -/
def handle_user_response (pending : Map (Future String)) (request_id response : String) :
    Except String (Bool × Map (Future String)) :=
  match pending request_id with
  | some fut =>
      if fut.isDone then .ok (false, pending)
      else do
        let fut2 ← fut.setResult response
        .ok (true, pending.set request_id fut2)
  | none => .ok (false, pending)

/- ------------------------------------------------------------------ -/
/- main.user_response event handler (lines 128-141)                   -/
/- ------------------------------------------------------------------ -/

/-- The `user_response` socket event handler: reads `request_id` and
`response` from the event data and forwards to `handle_user_response` only
when both are non-empty (Python truthiness of `if request_id and response`).
Returns `none` when the event is dropped without calling the resolver. -/
def user_response_event (pending : Map (Future String)) (request_id? : Option String)
    (response : String) : Except String (Option Bool × Map (Future String)) :=
  let request_id := request_id?.getD ""
  if request_id = "" ∨ response = "" then .ok (none, pending)
  else do
    let r ← handle_user_response pending request_id response
    .ok (some r.1, r.2)

/- ------------------------------------------------------------------ -/
/- main.frontend_tool_response (lines 241-261)                        -/
/- ------------------------------------------------------------------ -/

/-- The `frontend_tool_response` event handler. Returns the value delivered
to the waiting task's future (if the future was still pending) and the new
pending-tool-call table: when the token is known the entry is deleted either
way. -/
def frontend_tool_response (pending : Map (Future ToolResponse)) (data : ToolResponse) :
    Option ToolResponse × Map (Future ToolResponse) :=
  match data.toolCallId with
  | none => (none, pending)
  | some tid =>
      match pending tid with
      | some fut =>
          if fut.isDone then (none, pending.del tid)
          else (some data, pending.del tid)
      | none => (none, pending)

/-- The mapping `frontend_action` applies to the resolved reply
(`response.get('success', False)`, `response.get('result', {})`),
main.py lines 346-349. -/
def frontend_action_result (response : ToolResponse) : ActionResult :=
  { success := response.success.getD false
    data := response.result.getD (Value.obj []) }

/- ------------------------------------------------------------------ -/
/- main.frontend_action, pre-dispatch phase (lines 303-339)           -/
/- ------------------------------------------------------------------ -/

/-- Registration `pending_tool_calls[tool_call_id] = asyncio.Future()` (main.py 327-328);
also the shape of `pending_user_responses[request_id] = asyncio.Future()`
(builtin_actions.py 212-213): an unconditional dict assignment. -/
def frontend_action_register (pending : Map (Future ToolResponse)) (tool_call_id : String) :
    Map (Future ToolResponse) :=
  pending.set tool_call_id .pending

/-- Membership in `BUILTIN_ACTIONS`, as tested by `is_builtin_action`. -/
def is_builtin_action (action : String) : Bool :=
  action = "speak_to_user" || action = "ask_user"

/-- How `frontend_action` routes a request before any waiting happens. -/
inductive DispatchStep where
  | errMissingAction
  | errNoPeer
  | builtin (client action : String)
  | dispatched (client tool_call_id : String)
deriving DecidableEq

/-- The HTTP status raised for the early-error routes: 400 for a missing
action, 503 for `"No frontend client connected"`. -/
def DispatchStep.httpStatus : DispatchStep → Option Nat
  | .errMissingAction => some 400
  | .errNoPeer => some 503
  | _ => none

/-- The synchronous prefix of `frontend_action`: validate the action name,
require a connected client (HTTP 503 otherwise, before any allocation),
pick the first client, divert built-in actions, and otherwise register a
fresh pending future under the generated token. Returns the routing
decision and the pending-tool-call table afterwards. -/
def frontend_action_pre (connected_clients : List String)
    (pending : Map (Future ToolResponse)) (action? : Option String)
    (tool_call_id : String) : DispatchStep × Map (Future ToolResponse) :=
  let action := action?.getD ""
  if action = "" then (.errMissingAction, pending)
  else
    match connected_clients with
    | [] => (.errNoPeer, pending)
    | client :: _ =>
        if is_builtin_action action then (.builtin client action, pending)
        else (.dispatched client tool_call_id, frontend_action_register pending tool_call_id)

/-- The `except asyncio.TimeoutError` branch of `frontend_action`
(lines 350-354): drop the pending entry if still present and raise
HTTP 504 `"Frontend action timed out"`. -/
def frontend_action_on_timeout (pending : Map (Future ToolResponse)) (tool_call_id : String) :
    (Nat × String) × Map (Future ToolResponse) :=
  ((504, "Frontend action timed out"), pending.del tool_call_id)

/- ------------------------------------------------------------------ -/
/- Busy guard: active_speech_per_client (builtin_actions.py)          -/
/- ------------------------------------------------------------------ -/

/-- The `finally` cleanup of `handle_speak_to_user` / `handle_ask_user`
(lines 137-138 and 253-254): clear the guard only if it is still held by
this operation's id. -/
def release_guard (guard : Map String) (client operation_id : String) : Map String :=
  if guard client = some operation_id then guard.del client else guard

/-- External outcomes a `speak_to_user` run can meet: whether Polly
returned audio, whether the frontend acknowledged completion inside the
60 s wait, and whether emitting to the peer raised. -/
structure SpeakEnv where
  ttsOk : Bool
  ackWithin60 : Bool
  emitRaises : Bool

/-- What `handle_speak_to_user` hands back: a result envelope (its
`success` flag and `error` string) or a propagated exception. -/
inductive SpeakReturn where
  | envelope (success : Bool) (error : Option String)
  | raised
deriving DecidableEq

/-- Handler `handle_speak_to_user` (builtin_actions.py 49-138), run to completion
under environment `env`, with `speech_id` standing for the generated UUID.
Returns the result, the busy-guard map and the pending-speech table after
the `finally` block. -/
def handle_speak_to_user (guard : Map String) (pendingSpeech : Map (Future Bool))
    (client message : String) (wait_for_completion : Bool) (env : SpeakEnv)
    (speech_id : String) : SpeakReturn × Map String × Map (Future Bool) :=
  if message = "" then
    (.envelope false (some "Missing \x27message\x27 parameter"), guard, pendingSpeech)
  else
    match guard client with
    | some active_speech_id =>
        (.envelope false (some ("Speech already in progress (ID: " ++ active_speech_id ++
          "). Please wait for it to complete.")), guard, pendingSpeech)
    | none =>
        if !env.ttsOk then
          (.envelope false (some "Failed to generate speech"), guard, pendingSpeech)
        else
          let guard1 := guard.set client speech_id
          let ps1 := if wait_for_completion then pendingSpeech.set speech_id .pending
                     else pendingSpeech
          let body : SpeakReturn × Map (Future Bool) :=
            if env.emitRaises then (.raised, ps1)
            else if wait_for_completion && env.ackWithin60 then
              (.envelope true none, ps1.set speech_id (.done true))
            else
              (.envelope true none, ps1)
          (body.1, release_guard guard1 client speech_id, (body.2).del speech_id)

/-- External outcomes of an `ask_user` run: whether Polly returned audio
and the user's reply when it arrived inside the timeout. -/
structure AskEnv where
  ttsOk : Bool
  userResponse : Option String

/-- The envelope `handle_ask_user` returns. -/
structure AskReturn where
  success : Bool
  answer : Option String
  error : Option String
deriving DecidableEq

/-- Handler `handle_ask_user` (builtin_actions.py 163-254), run to completion under
environment `env`, with `request_id` standing for the generated UUID.
Returns the envelope, the busy-guard map and the pending-user-response
table after the `finally` block. -/
def handle_ask_user (guard : Map String) (pendingResp : Map (Future String))
    (client question : String) (timeout : Nat) (env : AskEnv)
    (request_id : String) : AskReturn × Map String × Map (Future String) :=
  if question = "" then
    (⟨false, none, some "Missing \x27question\x27 parameter"⟩, guard, pendingResp)
  else
    match guard client with
    | some active_speech_id =>
        (⟨false, none, some ("Speech already in progress (ID: " ++ active_speech_id ++
          "). Please wait for it to complete.")⟩, guard, pendingResp)
    | none =>
        if !env.ttsOk then
          (⟨false, none, some "Failed to generate speech for question"⟩, guard, pendingResp)
        else
          let guard1 := guard.set client request_id
          let pr1 := pendingResp.set request_id .pending
          let body : AskReturn × Map (Future String) :=
            match env.userResponse with
            | some r => (⟨true, some r, none⟩, pr1.set request_id (.done r))
            | none =>
                (⟨false, none, some ("User did not respond within " ++
                  toString timeout ++ " seconds")⟩, pr1)
          (body.1, release_guard guard1 client request_id, (body.2).del request_id)

/- ------------------------------------------------------------------ -/
/- Interleaving model of the speak_to_user acquisition path           -/
/- ------------------------------------------------------------------ -/

/-- Where a busy-guarded `speak_to_user` / `ask_user` task stands relative
to the cooperative scheduler: `ready` is before the busy check (lines 76
and 189), `active` is past the guard assignment (lines 96 and 209),
`rejected h` is the fail-fast return carrying the holder's id, and
`failedTTS` is the early return when speech generation fails. There is no
phase between the check and the assignment: `_generate_speech` is an
`async def` whose body contains no `await`, so awaiting it runs it to
completion without yielding to the event loop, and the first suspension
point of either handler comes only after the guard is set. -/
inductive SpeakPhase where
  | ready
  | active
  | rejected (holder : String)
  | failedTTS
deriving DecidableEq

/-- One in-flight busy-guarded invocation; `ttsOk` is whether its
(synchronous, non-yielding) speech generation succeeds. -/
structure SpeakTask where
  client : String
  speech_id : String
  ttsOk : Bool
  phase : SpeakPhase
deriving DecidableEq

/-- Advance one task to its next suspension point. Because
`_generate_speech` never yields, the busy check, the TTS call and the
guard assignment form one indivisible step: a ready task either observes a
held guard and is rejected with the holder's id, returns early on TTS
failure, or acquires the guard for its own id — all without any other task
running in between. -/
def speak_step (guard : Map String) (t : SpeakTask) : Map String × SpeakTask :=
  match t.phase with
  | .ready =>
      match guard t.client with
      | some h => (guard, { t with phase := .rejected h })
      | none =>
          if t.ttsOk then (guard.set t.client t.speech_id, { t with phase := .active })
          else (guard, { t with phase := .failedTTS })
  | _ => (guard, t)

/-- One scheduler move: some task in the pool takes its `speak_step`
against the shared guard; all other tasks are untouched. -/
inductive SchedStep : (Map String × List SpeakTask) → (Map String × List SpeakTask) → Prop where
  | step (g : Map String) (pre post : List SpeakTask) (t : SpeakTask) :
      SchedStep (g, pre ++ t :: post)
        ((speak_step g t).1, pre ++ (speak_step g t).2 :: post)

/-- Zero or more scheduler moves. -/
inductive SchedReaches : (Map String × List SpeakTask) → (Map String × List SpeakTask) → Prop where
  | refl (s : Map String × List SpeakTask) : SchedReaches s s
  | tail {s s2 s3 : Map String × List SpeakTask} :
      SchedReaches s s2 → SchedStep s2 s3 → SchedReaches s s3

/-- Whether a task is an active busy-guarded operation for peer `c`. -/
def isActiveFor (c : String) (t : SpeakTask) : Bool :=
  decide (t.client = c) && decide (t.phase = SpeakPhase.active)

/-- Number of active busy-guarded operations for peer `c` in the pool. -/
def countActive (c : String) (ts : List SpeakTask) : Nat :=
  ts.countP (isActiveFor c)

/-- The single-flight invariant: every peer has at most one active
busy-guarded operation, and a peer whose guard is free has none. -/
def GuardInv (g : Map String) (ts : List SpeakTask) : Prop :=
  ∀ c, countActive c ts ≤ 1 ∧ (g c = none → countActive c ts = 0)

/- ------------------------------------------------------------------ -/
/- main.user_prompt (lines 144-239): turn processing lock             -/
/- ------------------------------------------------------------------ -/

/-- What the `user_prompt` handler does with an event. -/
inductive PromptOutcome where
  | ignoredEmpty
  | busyNotice (message : String)
  | turnCompleted
  | turnErrored (error : String)
deriving DecidableEq

/-- The `user_prompt` event handler: drop empty prompts, emit a
non-blocking `agent_busy` notice when `agent_processing_lock[sid]` is set,
otherwise take the lock, run the turn (which may raise), and release the
lock in the `finally` block on either path. -/
def user_prompt (lock : Map Bool) (sid prompt : String) (turnRaises : Bool) :
    PromptOutcome × Map Bool :=
  if prompt = "" then (.ignoredEmpty, lock)
  else if (lock sid).getD false then
    (.busyNotice "Agent is currently processing. Please wait...", lock)
  else
    let lock1 := lock.set sid true
    let outcome := if turnRaises then PromptOutcome.turnErrored "Unexpected error"
                   else PromptOutcome.turnCompleted
    (outcome, lock1.set sid false)

/- ------------------------------------------------------------------ -/
/- main.disconnect (lines 62-108)                                     -/
/- ------------------------------------------------------------------ -/

/-- The process-wide mutable state of main.py and builtin_actions.py. -/
structure BrokerState where
  connected_clients : List String
  agent_processing_lock : Map Bool
  pending_tool_calls : Map (Future ToolResponse)
  pending_speech_completions : Map (Future Bool)
  pending_user_responses : Map (Future String)
  active_speech_per_client : Map String
  sessions : Map String

/-- The `disconnect` event handler's effect on broker state: discard the
sid from `connected_clients`, delete its `agent_processing_lock` entry,
and remove its session (the Bedrock stop call touches no broker state).
No other table is visited. -/
def disconnect (s : BrokerState) (sid : String) : BrokerState :=
  { s with
    connected_clients := s.connected_clients.filter (fun c => c ≠ sid)
    agent_processing_lock := s.agent_processing_lock.del sid
    sessions := s.sessions.del sid }

/- ------------------------------------------------------------------ -/
/- Shared helper lemmas                                               -/
/- ------------------------------------------------------------------ -/

theorem Map.set_self {β : Type} (m : Map β) (k : String) (v : β) :
    (m.set k v) k = some v := by
  simp [Map.set]

theorem Map.set_other {β : Type} (m : Map β) (k q : String) (v : β) (h : q ≠ k) :
    (m.set k v) q = m q := by
  simp [Map.set, h]

theorem Map.del_self {β : Type} (m : Map β) (k : String) :
    (m.del k) k = none := by
  simp [Map.del]

theorem Map.del_other {β : Type} (m : Map β) (k q : String) (h : q ≠ k) :
    (m.del k) q = m q := by
  simp [Map.del, h]

/- ------------------------------------------------------------------ -/
/- Claim C1                                                           -/
/- ------------------------------------------------------------------ -/

/-- Claim C1 (counterexample): in a state where peer `"c"` owns the pending
user-response token `"t"` and holds the busy guard under operation `"op"`,
running the `disconnect` handler for `"c"` leaves the token still
registered with its future still pending (so the waiting task receives no
cancellation result) and leaves the busy guard still held — contradicting
the claim that disconnect unregisters the peer's tokens, frees the guard
and cancels waiting tasks. -/
theorem disconnect_leaves_pending_and_guard_cx :
    ((disconnect ⟨["c"], Map.empty.set "c" true, Map.empty, Map.empty,
        Map.empty.set "t" Future.pending, Map.empty.set "c" "op", Map.empty⟩
        "c").pending_user_responses "t" = some Future.pending)
    ∧ ((disconnect ⟨["c"], Map.empty.set "c" true, Map.empty, Map.empty,
        Map.empty.set "t" Future.pending, Map.empty.set "c" "op", Map.empty⟩
        "c").active_speech_per_client "c" = some "op") := by
  decide

/-- Claim C1 (amended): the `disconnect` handler removes the peer from the
connected set, deletes its processing-lock entry, and leaves every pending
table (tool calls, speech completions, user responses) and the busy guard
untouched: waiting tasks are not cancelled and run to their own timeouts. -/
theorem disconnect_behavior (s : BrokerState) (sid : String) :
    (disconnect s sid).agent_processing_lock sid = none
    ∧ sid ∉ (disconnect s sid).connected_clients
    ∧ (disconnect s sid).pending_tool_calls = s.pending_tool_calls
    ∧ (disconnect s sid).pending_speech_completions = s.pending_speech_completions
    ∧ (disconnect s sid).pending_user_responses = s.pending_user_responses
    ∧ (disconnect s sid).active_speech_per_client = s.active_speech_per_client := by
  refine ⟨?_, ?_, rfl, rfl, rfl, rfl⟩
  · simp [disconnect, Map.del]
  · simp [disconnect, List.mem_filter]

/-- Witness for `disconnect_behavior` at a concrete one-peer state. -/
theorem disconnect_behavior_witness :
    (disconnect ⟨["a"], Map.empty, Map.empty, Map.empty, Map.empty, Map.empty,
        Map.empty⟩ "a").agent_processing_lock "a" = none
    ∧ "a" ∉ (disconnect ⟨["a"], Map.empty, Map.empty, Map.empty, Map.empty,
        Map.empty, Map.empty⟩ "a").connected_clients
    ∧ (disconnect ⟨["a"], Map.empty, Map.empty, Map.empty, Map.empty, Map.empty,
        Map.empty⟩ "a").pending_tool_calls = Map.empty
    ∧ (disconnect ⟨["a"], Map.empty, Map.empty, Map.empty, Map.empty, Map.empty,
        Map.empty⟩ "a").pending_speech_completions = Map.empty
    ∧ (disconnect ⟨["a"], Map.empty, Map.empty, Map.empty, Map.empty, Map.empty,
        Map.empty⟩ "a").pending_user_responses = Map.empty
    ∧ (disconnect ⟨["a"], Map.empty, Map.empty, Map.empty, Map.empty, Map.empty,
        Map.empty⟩ "a").active_speech_per_client = Map.empty :=
  disconnect_behavior ⟨["a"], Map.empty, Map.empty, Map.empty, Map.empty,
    Map.empty, Map.empty⟩ "a"

/- ------------------------------------------------------------------ -/
/- Claim C2                                                           -/
/- ------------------------------------------------------------------ -/

theorem countActive_split_false (c : String) (pre post : List SpeakTask)
    (t : SpeakTask) (h : isActiveFor c t = false) :
    countActive c (pre ++ t :: post) = countActive c pre + countActive c post := by
  simp [countActive, List.countP_append, List.countP_cons, h]

theorem countActive_split_true (c : String) (pre post : List SpeakTask)
    (t : SpeakTask) (h : isActiveFor c t = true) :
    countActive c (pre ++ t :: post) = countActive c pre + countActive c post + 1 := by
  simp [countActive, List.countP_append, List.countP_cons, h]
  omega

theorem guardInv_step {s s2 : Map String × List SpeakTask}
    (h : SchedStep s s2) (hinv : GuardInv s.1 s.2) : GuardInv s2.1 s2.2 := by
  cases h with
  | step g pre post t =>
    cases htp : t.phase with
    | ready =>
      cases hg : g t.client with
      | some holder =>
        have hstep : speak_step g t = (g, { t with phase := SpeakPhase.rejected holder }) := by
          simp [speak_step, htp, hg]
        rw [hstep]
        intro c
        have hc := hinv c
        have h1 : isActiveFor c t = false := by
          simp [isActiveFor, htp]
        have h2 : isActiveFor c { t with phase := SpeakPhase.rejected holder } = false := by
          simp [isActiveFor]
        rw [countActive_split_false _ _ _ _ h1] at hc
        rw [countActive_split_false _ _ _ _ h2]
        exact hc
      | none =>
        cases htts : t.ttsOk with
        | false =>
          have hstep : speak_step g t = (g, { t with phase := SpeakPhase.failedTTS }) := by
            simp [speak_step, htp, hg, htts]
          rw [hstep]
          intro c
          have hc := hinv c
          have h1 : isActiveFor c t = false := by
            simp [isActiveFor, htp]
          have h2 : isActiveFor c { t with phase := SpeakPhase.failedTTS } = false := by
            simp [isActiveFor]
          rw [countActive_split_false _ _ _ _ h1] at hc
          rw [countActive_split_false _ _ _ _ h2]
          exact hc
        | true =>
          have hstep : speak_step g t
              = (g.set t.client t.speech_id, { t with phase := SpeakPhase.active }) := by
            simp [speak_step, htp, hg, htts]
          rw [hstep]
          intro c
          have hc := hinv c
          by_cases hcc : c = t.client
          · subst hcc
            have h1 : isActiveFor t.client t = false := by
              simp [isActiveFor, htp]
            have h3 : isActiveFor t.client { t with phase := SpeakPhase.active } = true := by
              simp [isActiveFor]
            have h0 : countActive t.client (pre ++ t :: post) = 0 := hc.2 hg
            rw [countActive_split_false _ _ _ _ h1] at h0
            refine ⟨?_, ?_⟩
            · rw [countActive_split_true _ _ _ _ h3]
              omega
            · intro habs
              simp [Map.set] at habs
          · have h1 : isActiveFor c t = false := by
              simp [isActiveFor, htp]
            have h2 : isActiveFor c { t with phase := SpeakPhase.active } = false := by
              simp [isActiveFor]
              exact fun he => hcc he.symm
            rw [countActive_split_false _ _ _ _ h1] at hc
            refine ⟨?_, ?_⟩
            · rw [countActive_split_false _ _ _ _ h2]
              exact hc.1
            · intro hnone
              rw [countActive_split_false _ _ _ _ h2]
              refine hc.2 ?_
              simpa [Map.set, hcc] using hnone
    | active =>
      have hstep : speak_step g t = (g, t) := by
        simp [speak_step, htp]
      rw [hstep]
      exact hinv
    | rejected holder =>
      have hstep : speak_step g t = (g, t) := by
        simp [speak_step, htp]
      rw [hstep]
      exact hinv
    | failedTTS =>
      have hstep : speak_step g t = (g, t) := by
        simp [speak_step, htp]
      rw [hstep]
      exact hinv

theorem guardInv_reaches {s s2 : Map String × List SpeakTask}
    (h : SchedReaches s s2) (hinv : GuardInv s.1 s.2) : GuardInv s2.1 s2.2 := by
  induction h with
  | refl => exact hinv
  | tail hr hstep ih => exact guardInv_step hstep ih

theorem guardInv_start (ts : List SpeakTask)
    (h : ∀ u ∈ ts, u.phase ≠ SpeakPhase.active) : GuardInv Map.empty ts := by
  intro c
  have h0 : countActive c ts = 0 := by
    refine List.countP_eq_zero.mpr ?_
    intro u hu
    simp only [isActiveFor, Bool.and_eq_true, decide_eq_true_eq]
    rintro ⟨-, h2⟩
    exact h u hu h2
  exact ⟨by omega, fun _ => h0⟩

/-- Claim C2: `_generate_speech` is an `async def` with no `await` in its
body, so awaiting it runs without yielding to the event loop: the busy
check and the guard assignment execute with no suspension point between
them, modelled as one indivisible `speak_step`. The theorem states: a
second attempt while the guard is held returns immediately, without
blocking, with a failure envelope naming the holder's id and all state
unchanged; in the step machine a ready attempt against a held guard is
rejected in that same step while an attempt against a free guard checks
and sets the guard atomically; and in every state reachable by any
schedule from a pool with no active operation, at most one busy-guarded
operation is active per peer. -/
theorem speak_single_flight
    (g : Map String) (ps : Map (Future Bool)) (client msg sid h : String)
    (wfc : Bool) (env : SpeakEnv)
    (gB : Map String) (tB : SpeakTask) (hB : String)
    (gF : Map String) (tF : SpeakTask)
    (ts0 : List SpeakTask) (s2 : Map String × List SpeakTask) (c : String)
    (hmsg : msg ≠ "") (hh : g client = some h)
    (htB : tB.phase = SpeakPhase.ready) (hgB : gB tB.client = some hB)
    (htF : tF.phase = SpeakPhase.ready) (hgF : gF tF.client = none)
    (htts : tF.ttsOk = true)
    (h0 : ∀ u ∈ ts0, u.phase ≠ SpeakPhase.active)
    (hreach : SchedReaches (Map.empty, ts0) s2) :
    handle_speak_to_user g ps client msg wfc env sid
      = (SpeakReturn.envelope false (some ("Speech already in progress (ID: " ++ h ++
          "). Please wait for it to complete.")), g, ps)
    ∧ speak_step gB tB = (gB, { tB with phase := SpeakPhase.rejected hB })
    ∧ speak_step gF tF
      = (gF.set tF.client tF.speech_id, { tF with phase := SpeakPhase.active })
    ∧ countActive c s2.2 ≤ 1 := by
  refine ⟨?_, ?_, ?_, ?_⟩
  · simp [handle_speak_to_user, hmsg, hh]
  · simp [speak_step, htB, hgB]
  · simp [speak_step, htF, hgF, htts]
  · exact ((guardInv_reaches hreach (guardInv_start ts0 h0)) c).1

/-- Witness for `speak_single_flight`: peer `"c"` holds the guard under
`"a"` and the attempt `"b"` is rejected naming `"a"`; a fresh attempt
acquires atomically; and after the schedule in which task `"a"` takes its
step first, the pool of two tasks for peer `"c"` has at most one active
operation. -/
theorem speak_single_flight_witness :
    handle_speak_to_user (Map.empty.set "c" "a") Map.empty "c" "hi" true
        ⟨true, true, false⟩ "b"
      = (SpeakReturn.envelope false (some ("Speech already in progress (ID: " ++ "a" ++
          "). Please wait for it to complete.")), Map.empty.set "c" "a", Map.empty)
    ∧ speak_step (Map.empty.set "c" "a") ⟨"c", "b", true, SpeakPhase.ready⟩
      = (Map.empty.set "c" "a",
         { (⟨"c", "b", true, SpeakPhase.ready⟩ : SpeakTask) with
             phase := SpeakPhase.rejected "a" })
    ∧ speak_step Map.empty ⟨"c", "a", true, SpeakPhase.ready⟩
      = (Map.empty.set "c" "a",
         { (⟨"c", "a", true, SpeakPhase.ready⟩ : SpeakTask) with
             phase := SpeakPhase.active })
    ∧ countActive "c"
        ((speak_step Map.empty ⟨"c", "a", true, SpeakPhase.ready⟩).1,
          (speak_step Map.empty ⟨"c", "a", true, SpeakPhase.ready⟩).2
            :: [⟨"c", "b", true, SpeakPhase.ready⟩]).2 ≤ 1 :=
  speak_single_flight (Map.empty.set "c" "a") Map.empty "c" "hi" "b" "a" true
    ⟨true, true, false⟩
    (Map.empty.set "c" "a") ⟨"c", "b", true, SpeakPhase.ready⟩ "a"
    Map.empty ⟨"c", "a", true, SpeakPhase.ready⟩
    [⟨"c", "a", true, SpeakPhase.ready⟩, ⟨"c", "b", true, SpeakPhase.ready⟩]
    ((speak_step Map.empty ⟨"c", "a", true, SpeakPhase.ready⟩).1,
      (speak_step Map.empty ⟨"c", "a", true, SpeakPhase.ready⟩).2
        :: [⟨"c", "b", true, SpeakPhase.ready⟩])
    "c"
    (by decide) rfl rfl rfl rfl rfl rfl (by decide)
    (SchedReaches.tail (SchedReaches.refl _)
      (SchedStep.step Map.empty [] [⟨"c", "b", true, SpeakPhase.ready⟩]
        ⟨"c", "a", true, SpeakPhase.ready⟩))

/- ------------------------------------------------------------------ -/
/- Claim C3                                                           -/
/- ------------------------------------------------------------------ -/

/-- Claim C3: `handle_user_response` returns `True` and completes the
pending future with the payload exactly when a pending, not-yet-resolved
entry exists for the token (first conjunct, an iff); in every other case —
never registered, already resolved, or resolved-and-waiter-returned — it
returns `False`, leaves the table exactly as it was, and does not raise
(the `Except` result is `ok`, never `error`). -/
theorem resolve_contract (pending pendingN : Map (Future String)) (t p : String)
    (hn : pendingN t ≠ some Future.pending) :
    (handle_user_response pending t p
        = .ok (true, pending.set t (Future.done p)) ↔ pending t = some Future.pending)
    ∧ handle_user_response pendingN t p = .ok (false, pendingN) := by
  constructor
  · constructor
    · intro heq
      cases hpt : pending t with
      | none =>
          rw [handle_user_response, hpt] at heq
          simp at heq
      | some fut =>
          cases fut with
          | pending => rfl
          | done v =>
              rw [handle_user_response, hpt] at heq
              simp [Future.isDone] at heq
    · intro hpt
      rw [handle_user_response, hpt]
      rfl
  · cases hpt : pendingN t with
    | none => rw [handle_user_response, hpt]
    | some fut =>
        cases fut with
        | pending => exact absurd hpt hn
        | done v =>
            rw [handle_user_response, hpt]
            rfl

/-- Witness for `resolve_contract`: token `"t"` is pending in one table and
absent from the other. -/
theorem resolve_contract_witness :
    (handle_user_response (Map.empty.set "t" Future.pending) "t" "hi"
        = .ok (true, (Map.empty.set "t" Future.pending).set "t" (Future.done "hi"))
      ↔ (Map.empty.set "t" (Future.pending : Future String)) "t" = some Future.pending)
    ∧ handle_user_response Map.empty "t" "hi" = .ok (false, Map.empty) :=
  resolve_contract (Map.empty.set "t" Future.pending) Map.empty "t" "hi" (by decide)

/- ------------------------------------------------------------------ -/
/- Claim C4                                                           -/
/- ------------------------------------------------------------------ -/

/-- Claim C4 (counterexample): a `speak_to_user` call that waits for
completion and whose 60-second completion wait times out (guard free, TTS
succeeded, no acknowledgement arrived) returns an envelope with
`success = true` — not the claimed `{success: false, error: ...}`. -/
theorem speak_timeout_success_cx :
    (handle_speak_to_user Map.empty Map.empty "c" "hello" true
        ⟨true, false, false⟩ "s1").1 = SpeakReturn.envelope true none := by
  decide

/-- Claim C4 (amended): a missing message, a speech-generation failure, an
`ask_user` busy rejection and an `ask_user` timeout each yield a structured
`success = false` envelope with a human-readable error, and a generic
frontend-action timeout raises HTTP 504 `"Frontend action timed out"`
after discarding the pending entry — but a `speak_to_user` call whose
60-second completion wait times out swallows the timeout and returns
`success = true`. -/
theorem failure_envelopes_amended
    (guard guardB : Map String) (ps : Map (Future Bool)) (pr : Map (Future String))
    (pending : Map (Future ToolResponse)) (client msg q sid rid tok h : String)
    (wfc : Bool) (timeout : Nat)
    (hmsg : msg ≠ "") (hq : q ≠ "") (hfree : guard client = none)
    (hheld : guardB client = some h) :
    (handle_speak_to_user guard ps client "" wfc ⟨true, true, false⟩ sid).1
      = SpeakReturn.envelope false (some "Missing \x27message\x27 parameter")
    ∧ (handle_speak_to_user guard ps client msg wfc ⟨false, false, false⟩ sid).1
      = SpeakReturn.envelope false (some "Failed to generate speech")
    ∧ (handle_ask_user guardB pr client q timeout ⟨true, some "yes"⟩ rid).1
      = ⟨false, none, some ("Speech already in progress (ID: " ++ h ++
          "). Please wait for it to complete.")⟩
    ∧ (handle_ask_user guard pr client q timeout ⟨true, none⟩ rid).1
      = ⟨false, none, some ("User did not respond within " ++
          toString timeout ++ " seconds")⟩
    ∧ frontend_action_on_timeout pending tok
      = ((504, "Frontend action timed out"), pending.del tok)
    ∧ (handle_speak_to_user guard ps client msg true ⟨true, false, false⟩ sid).1
      = SpeakReturn.envelope true none := by
  refine ⟨?_, ?_, ?_, ?_, rfl, ?_⟩
  · simp [handle_speak_to_user]
  · simp [handle_speak_to_user, hmsg, hfree]
  · simp [handle_ask_user, hq, hheld]
  · simp [handle_ask_user, hq, hfree]
  · simp [handle_speak_to_user, hmsg, hfree]

/-- Witness for `failure_envelopes_amended` with concrete tables, peer and
a 30-second question timeout. -/
theorem failure_envelopes_amended_witness :
    (handle_speak_to_user Map.empty Map.empty "c" "" true ⟨true, true, false⟩ "s").1
      = SpeakReturn.envelope false (some "Missing \x27message\x27 parameter")
    ∧ (handle_speak_to_user Map.empty Map.empty "c" "hello" true
        ⟨false, false, false⟩ "s").1
      = SpeakReturn.envelope false (some "Failed to generate speech")
    ∧ (handle_ask_user (Map.empty.set "c" "a") Map.empty "c" "q" 30
        ⟨true, some "yes"⟩ "r").1
      = ⟨false, none, some ("Speech already in progress (ID: " ++ "a" ++
          "). Please wait for it to complete.")⟩
    ∧ (handle_ask_user Map.empty Map.empty "c" "q" 30 ⟨true, none⟩ "r").1
      = ⟨false, none, some ("User did not respond within " ++
          toString 30 ++ " seconds")⟩
    ∧ frontend_action_on_timeout Map.empty "t"
      = ((504, "Frontend action timed out"), Map.empty.del "t")
    ∧ (handle_speak_to_user Map.empty Map.empty "c" "hello" true
        ⟨true, false, false⟩ "s").1
      = SpeakReturn.envelope true none :=
  failure_envelopes_amended Map.empty (Map.empty.set "c" "a") Map.empty Map.empty
    Map.empty "c" "hello" "q" "s" "r" "t" "a" true 30
    (by decide) (by decide) rfl rfl

/- ------------------------------------------------------------------ -/
/- Claim C5                                                           -/
/- ------------------------------------------------------------------ -/

/-- Claim C5 (counterexample): registering token `"t"` while `"t"` is
already registered (holding a completed future) does not fail — there is no
`DuplicateToken` error path at all — and it replaces the existing pending
request with a fresh pending future. -/
theorem register_duplicate_overwrites_cx :
    ((frontend_action_register
        (Map.empty.set "t" (Future.done ⟨some "t", some true, none, none⟩)) "t") "t"
      = some Future.pending)
    ∧ ((Map.empty.set "t" (Future.done (⟨some "t", some true, none, none⟩ : ToolResponse))) "t"
      = some (Future.done ⟨some "t", some true, none, none⟩))
    ∧ some (Future.pending : Future ToolResponse)
      ≠ some (Future.done (⟨some "t", some true, none, none⟩ : ToolResponse)) := by
  refine ⟨rfl, rfl, ?_⟩
  intro heq
  injection heq with heq2
  exact Future.noConfusion heq2

/-- Claim C5 (amended): registration never fails: it unconditionally stores
a fresh pending future under the supplied token, replacing any existing
entry for that token and leaving every other token's entry unchanged;
uniqueness rests on random UUID generation, not on a duplicate check. -/
theorem register_always_succeeds (pending : Map (Future ToolResponse)) (tok k : String)
    (hk : k ≠ tok) :
    (frontend_action_register pending tok) tok = some Future.pending
    ∧ (frontend_action_register pending tok) k = pending k := by
  constructor
  · simp [frontend_action_register, Map.set]
  · simp [frontend_action_register, Map.set, hk]

/-- Witness for `register_always_succeeds` on an empty table. -/
theorem register_always_succeeds_witness :
    (frontend_action_register Map.empty "t") "t" = some Future.pending
    ∧ (frontend_action_register Map.empty "t") "u" = Map.empty "u" :=
  register_always_succeeds Map.empty "t" "u" (by decide)

/- ------------------------------------------------------------------ -/
/- Claim C6                                                           -/
/- ------------------------------------------------------------------ -/

/-- Claim C6: dispatching any named action with no connected peers fails
immediately with the no-peer route (HTTP 503) and returns the
pending-tool-call table unchanged: no token is registered and no state is
allocated. -/
theorem no_peer_rejects_immediately (pending : Map (Future ToolResponse))
    (action? : Option String) (tok : String) (ha : action?.getD "" ≠ "") :
    frontend_action_pre [] pending action? tok = (DispatchStep.errNoPeer, pending)
    ∧ DispatchStep.errNoPeer.httpStatus = some 503 := by
  constructor
  · simp [frontend_action_pre, ha]
  · rfl

/-- Witness for `no_peer_rejects_immediately` on the spec's scenario:
action `"create_task"` with no connected peers. -/
theorem no_peer_rejects_immediately_witness :
    frontend_action_pre [] Map.empty (some "create_task") "t"
      = (DispatchStep.errNoPeer, Map.empty)
    ∧ DispatchStep.errNoPeer.httpStatus = some 503 :=
  no_peer_rejects_immediately Map.empty (some "create_task") "t" (by decide)

/- ------------------------------------------------------------------ -/
/- Claim C7                                                           -/
/- ------------------------------------------------------------------ -/

/-- Claim C7: when the peer's reply `{token, success: true, result: r}`
arrives while the request is still pending, `frontend_tool_response`
delivers the reply to the waiting future, and `frontend_action` maps the
resolved reply to exactly `{success: true, data: r}`. -/
theorem dispatch_roundtrip_success (pending : Map (Future ToolResponse))
    (tok : String) (r : Value) (hp : pending tok = some Future.pending) :
    (frontend_tool_response pending ⟨some tok, some true, some r, none⟩).1
      = some ⟨some tok, some true, some r, none⟩
    ∧ frontend_action_result ⟨some tok, some true, some r, none⟩
      = ⟨true, r⟩ := by
  constructor
  · rw [frontend_tool_response]
    simp [hp, Future.isDone]
  · rfl

/-- Witness for `dispatch_roundtrip_success` on the spec's scenario: the
reply result is `{id: 7}` and the caller receives
`{success: true, data: {id: 7}}`. -/
theorem dispatch_roundtrip_success_witness :
    (frontend_tool_response (Map.empty.set "t" Future.pending)
        ⟨some "t", some true, some (Value.obj [("id", Value.nat 7)]), none⟩).1
      = some ⟨some "t", some true, some (Value.obj [("id", Value.nat 7)]), none⟩
    ∧ frontend_action_result
        ⟨some "t", some true, some (Value.obj [("id", Value.nat 7)]), none⟩
      = ⟨true, Value.obj [("id", Value.nat 7)]⟩ :=
  dispatch_roundtrip_success (Map.empty.set "t" Future.pending) "t"
    (Value.obj [("id", Value.nat 7)]) rfl

/- ------------------------------------------------------------------ -/
/- Claim C8                                                           -/
/- ------------------------------------------------------------------ -/

/-- Claim C8: releasing the busy guard with an id that is not the current
holder is a no-op and the guard stays with the holder; a matching release
clears it; and on every exit path of a `speak_to_user` run — normal
completion, completion timeout, and an exception while emitting, over any
environment — the final guard holds nothing for the peer. -/
theorem release_guard_contract (g gf : Map String) (ps : Map (Future Bool))
    (client msg sid a b : String) (wfc : Bool) (env : SpeakEnv)
    (hheld : g client = some a) (hne : b ≠ a) (hfree : gf client = none) :
    release_guard g client b = g
    ∧ (release_guard g client a) client = none
    ∧ ((handle_speak_to_user gf ps client msg wfc env sid).2.1) client = none := by
  refine ⟨?_, ?_, ?_⟩
  · simp [release_guard, hheld, Ne.symm hne]
  · simp [release_guard, hheld, Map.del]
  · by_cases hm : msg = ""
    · simp [handle_speak_to_user, hm, hfree]
    · obtain ⟨tts, ack, er⟩ := env
      cases tts
      · simp [handle_speak_to_user, hm, hfree]
      · cases er <;>
          simp [handle_speak_to_user, hm, hfree, release_guard, Map.set, Map.del]

/-- Witness for `release_guard_contract`: guard held by `"a"`, stale
release by `"b"` is a no-op; a fresh peer's run ends with the guard free on
the timeout exit path. -/
theorem release_guard_contract_witness :
    release_guard (Map.empty.set "c" "a") "c" "b" = Map.empty.set "c" "a"
    ∧ (release_guard (Map.empty.set "c" "a") "c" "a") "c" = none
    ∧ ((handle_speak_to_user Map.empty Map.empty "c" "hello" true
        ⟨true, false, false⟩ "s").2.1) "c" = none :=
  release_guard_contract (Map.empty.set "c" "a") Map.empty Map.empty "c" "hello"
    "s" "a" "b" true ⟨true, false, false⟩ rfl (by decide) rfl

/- ------------------------------------------------------------------ -/
/- Claim C9                                                           -/
/- ------------------------------------------------------------------ -/

/-- Claim C9: a `user_prompt` arriving while the processing lock is held
returns immediately with the non-blocking `agent_busy` notice and leaves
the lock state untouched (no second turn starts); and when the lock is
free the turn runs and the lock is set back to `false` on every exit path,
whether the turn completed or raised. -/
theorem processing_lock_contract (lockB lockF : Map Bool) (sid prompt : String)
    (tr : Bool) (hp : prompt ≠ "")
    (hb : (lockB sid).getD false = true) (hf : (lockF sid).getD false = false) :
    user_prompt lockB sid prompt tr
      = (PromptOutcome.busyNotice "Agent is currently processing. Please wait...", lockB)
    ∧ ((user_prompt lockF sid prompt tr).2) sid = some false := by
  constructor
  · simp [user_prompt, hp, hb]
  · simp [user_prompt, hp, hf, Map.set]

/-- Witness for `processing_lock_contract`: the busy lock holds `true` for
`"c"`; the free table is empty; the turn raises. -/
theorem processing_lock_contract_witness :
    user_prompt (Map.empty.set "c" true) "c" "hi" true
      = (PromptOutcome.busyNotice "Agent is currently processing. Please wait...",
         Map.empty.set "c" true)
    ∧ ((user_prompt Map.empty "c" "hi" true).2) "c" = some false :=
  processing_lock_contract (Map.empty.set "c" true) Map.empty "c" "hi" true
    (by decide) rfl rfl

/- ------------------------------------------------------------------ -/
/- Claim C10                                                          -/
/- ------------------------------------------------------------------ -/

/-- Claim C10: a `user_response` event carrying a registered request id but
an empty response string is dropped by the event handler without calling
the resolver — the table is returned untouched and the request's future
stays pending — and the waiting `ask_user` call therefore runs to its
timeout and returns the `success = false` timeout envelope, so the empty
answer is never delivered. -/
theorem empty_response_dropped (pending : Map (Future String)) (guard : Map String)
    (pr : Map (Future String)) (client q rid : String) (timeout : Nat)
    (hreg : pending rid = some Future.pending)
    (hq : q ≠ "") (hfree : guard client = none) :
    user_response_event pending (some rid) "" = .ok (none, pending)
    ∧ pending rid = some Future.pending
    ∧ (handle_ask_user guard pr client q timeout ⟨true, none⟩ rid).1
      = ⟨false, none, some ("User did not respond within " ++
          toString timeout ++ " seconds")⟩ := by
  refine ⟨?_, hreg, ?_⟩
  · simp [user_response_event]
  · simp [handle_ask_user, hq, hfree]

/-- Witness for `empty_response_dropped`: request `"r"` is registered and
pending, the guard is free, and the question uses the default 30-second
timeout. -/
theorem empty_response_dropped_witness :
    user_response_event (Map.empty.set "r" Future.pending) (some "r") ""
      = .ok (none, Map.empty.set "r" Future.pending)
    ∧ (Map.empty.set "r" (Future.pending : Future String)) "r" = some Future.pending
    ∧ (handle_ask_user Map.empty (Map.empty.set "r" Future.pending) "c" "q" 30
        ⟨true, none⟩ "r").1
      = ⟨false, none, some ("User did not respond within " ++
          toString 30 ++ " seconds")⟩ :=
  empty_response_dropped (Map.empty.set "r" Future.pending) Map.empty
    (Map.empty.set "r" Future.pending) "c" "q" "r" 30 rfl (by decide) rfl

end AgentDemo
